import Mathlib

/-
Verification of the simulation aggregation engine of the synthsense backend
(src/backend/app/services/simulation_service.py and ai_service.py).

Modelling conventions:
* Python dicts with ordered string keys are association lists.
* Persona attribute values (string / number / list-of-strings / None) are the
  inductive type PyValue; Python str() is pyStr.
* The LLM gateway is nondeterministic I/O; it is modelled as an oracle record
  whose fields map the semantic inputs of each call site (the fixed prompt
  text built around those inputs is injective in them, so folding it into the
  oracle loses no generality).  A raised exception is the .error branch of
  Except, carrying str(e).
* json.loads is likewise an oracle: its outcome is either a JSON decode
  failure, a JSON value that is not an object (on which dict .get would raise
  AttributeError, uncaught by the except json.JSONDecodeError clause), or an
  object, whose values are modelled as strings (the code forwards them as-is).
-/

/-- Python value stored in a persona_data mapping: string, number,
list of strings, or None. -/
inductive PyValue where
  | str (s : String)
  | int (n : Int)
  | list (l : List String)
  | none_
  deriving Repr, DecidableEq

/-- Python str() on a PyValue.  str(None) = "None"; str of a list of strings
is the bracketed repr (only reachable where the code did not branch on
isinstance(value, list), which in this code base is never). -/
def pyStr : PyValue → String
  | .str s => s
  | .int n => toString n
  | .none_ => "None"
  | .list l => "[" ++ String.intercalate ", " (l.map (fun s => "'" ++ s ++ "'")) ++ "]"

/-- An ordered attribute mapping, as a Python dict of insertion-ordered keys. -/
abbrev PersonaData := List (String × PyValue)

/-- dict.get(k) without default: first entry with the key. -/
def pdGet (pd : PersonaData) (k : String) : Option PyValue :=
  (pd.find? (fun kv => kv.1 == k)).map (fun kv => kv.2)

/-- A persona handed to the simulation service: opaque id plus attributes. -/
structure Persona where
  id : String
  persona_data : PersonaData
  deriving Repr, DecidableEq

/-- Python str.title() restricted to ASCII: the first cased character of each
maximal cased run is uppercased, the rest lowercased. -/
def pyTitleAux : Bool → List Char → List Char
  | _, [] => []
  | prevCased, c :: cs =>
    if c.isAlpha then
      (if prevCased then c.toLower else c.toUpper) :: pyTitleAux true cs
    else
      c :: pyTitleAux false cs

/-- Python str.title() on a string. -/
def pyTitle (s : String) : String :=
  ⟨pyTitleAux false s.data⟩

/-- key.replace("_", " "): the pattern is one character, so the
replacement is a character-wise map. -/
def replaceUnderscores (s : String) : String :=
  ⟨s.data.map (fun c => if c = '_' then ' ' else c)⟩

/-- ai_service.format_persona_profile: one line per attribute, in mapping
order, of the form "Key Words: value"; key has underscores replaced by
spaces and is title-cased; None renders "N/A"; a list renders its elements
joined with ", "; anything else renders via str(). -/
def format_persona_profile (persona_data : PersonaData) : String :=
  String.intercalate "\n" (persona_data.map (fun kv =>
    let formatted_key := pyTitle (replaceUnderscores kv.1)
    let formatted_value :=
      match kv.2 with
      | .none_ => "N/A"
      | .list l => String.intercalate ", " (l.map (fun item => item))
      | v => pyStr v
    formatted_key ++ ": " ++ formatted_value))

/-- Key transformation as the spec words it: replace separator characters
with spaces and title-case each word. -/
def humanReadableKey (k : String) : String :=
  pyTitle (replaceUnderscores k)

/-- Value transformation as the spec words it: null renders the literal
"N/A", a list renders its elements' string representations joined with
", ", any other value renders its string representation. -/
def renderValue : PyValue → String
  | .none_ => "N/A"
  | .list l => String.intercalate ", " (l.map (fun item => item))
  | v => pyStr v

/-- Formatter as described by the spec, for comparison with the source
translation format_persona_profile. -/
def formatterSpec (persona_data : PersonaData) : String :=
  String.intercalate "\n"
    (persona_data.map (fun kv => humanReadableKey kv.1 ++ ": " ++ renderValue kv.2))

/-- Membership of a character in the regex class [1-5]. -/
def inClass15 (c : Char) : Bool :=
  c = '1' || c = '2' || c = '3' || c = '4' || c = '5'

/-- re.search for [1-5]: the first character of the text in the class. -/
def firstLikertChar (s : String) : Option Char :=
  s.data.find? inClass15

/-- Likert parsing shared by _call_llm_phase2 and extract_likert_score:
first [1-5] character as int, default 3, then max(1, min(5, score)). -/
def parseLikert (content : String) : Int :=
  let score : Int :=
    match firstLikertChar content with
    | some c => Int.ofNat (c.toNat - '0'.toNat)
    | none => 3
  max 1 (min 5 score)

/-- Rounding of the exact ratio num/den to the nearest integer with ties to
even, as Python float formatting rounds; 0 when den = 0 (unreachable, the
caller guards total == 0). -/
def roundHalfEvenRatio (num den : Nat) : Nat :=
  if den = 0 then 0
  else
    let q := num / den
    let r := num % den
    if 2 * r < den then q
    else if den < 2 * r then q + 1
    else if q % 2 = 0 then q else q + 1

/-- Python f-string "(count/total)*100:.1f" for a nonnegative ratio: the
value rounded to one decimal digit over exact rationals, rendered "I.D". -/
def fmtPercent1 (count total : Nat) : String :=
  let tenths := roundHalfEvenRatio (count * 1000) total
  toString (tenths / 10) ++ "." ++ toString (tenths % 10)

/-- One sentiment bucket of the breakdown: count and formatted percentage. -/
structure BucketStat where
  count : Nat
  percentage : String
  deriving Repr, DecidableEq

/-- The three-bucket sentiment breakdown. -/
structure SentimentBreakdown where
  adopt : BucketStat
  mixed : BucketStat
  not : BucketStat
  deriving Repr, DecidableEq

/-- One per-persona result as produced by _process_persona_complete. -/
structure PersonaResult where
  persona_id : String
  persona_data : PersonaData
  response_text : String
  score : Int
  deriving Repr, DecidableEq

/-- SimulationService._calculate_sentiment_breakdown. -/
def calculate_sentiment_breakdown (results : List PersonaResult) : SentimentBreakdown :=
  let adopt_count := results.countP (fun result => 4 ≤ result.score)
  let mixed_count := results.countP (fun result => result.score = 3)
  let not_count := results.countP (fun result => result.score ≤ 2)
  let total := results.length
  if total = 0 then
    { adopt := { count := 0, percentage := "0.0" },
      mixed := { count := 0, percentage := "0.0" },
      not := { count := 0, percentage := "0.0" } }
  else
    { adopt := { count := adopt_count, percentage := fmtPercent1 adopt_count total },
      mixed := { count := mixed_count, percentage := fmtPercent1 mixed_count total },
      not := { count := not_count, percentage := fmtPercent1 not_count total } }

/-- Nested counter for one attribute: stringified value to count. -/
abbrev ValCounts := List (String × Nat)

/-- Nested counter for one sentiment bucket: attribute to value counts. -/
abbrev FieldMap := List (String × ValCounts)

/-- distributions[sentiment][field][value] = ...get(value, 0) + 1 on the
inner dict: bump the count of a value, appending it when absent. -/
def bumpVal : ValCounts → String → ValCounts
  | [], v => [(v, 1)]
  | (k, n) :: rest, v => if k = v then (k, n + 1) :: rest else (k, n) :: bumpVal rest v

/-- The two dict updates on distributions[sentiment]: materialise the field
entry when absent, then bump the value count inside it. -/
def bumpField : FieldMap → String → String → FieldMap
  | [], f, v => [(f, [(v, 1)])]
  | (k, vc) :: rest, f, v =>
    if k = f then (k, bumpVal vc v) :: rest else (k, vc) :: bumpField rest f v

/-- The fixed demographic allow-list of _calculate_property_distributions. -/
def allowed_fields : List String := ["age", "income_level", "gender", "relationship_status"]

/-- persona_data.get(field, "N/A") followed by the isinstance(list) join or
str(): the stringified value counted in the distributions. -/
def stringifyFieldValue (persona_data : PersonaData) (field : String) : String :=
  match pdGet persona_data field with
  | none => "N/A"
  | some (.list l) => String.intercalate ", " (l.map (fun v => v))
  | some v => pyStr v

/-- The inner for-loop over allowed_fields for one result's bucket. -/
def updateFieldMap (m : FieldMap) (persona_data : PersonaData) : FieldMap :=
  allowed_fields.foldl (fun m f => bumpField m f (stringifyFieldValue persona_data f)) m

/-- The sentiment trichotomy used when slicing distributions. -/
inductive Sentiment where
  | adopt
  | mixed
  | not
  deriving Repr, DecidableEq

/-- sentiment = "adopt" if score >= 4 else "mixed" if score == 3 else "not". -/
def sentimentOf (score : Int) : Sentiment :=
  if 4 ≤ score then .adopt else if score = 3 then .mixed else .not

/-- The nested distributions dict with its three fixed top-level buckets. -/
structure Distributions where
  adopt : FieldMap
  mixed : FieldMap
  not : FieldMap
  deriving Repr, DecidableEq

/-- Body of the for-loop of _calculate_property_distributions: classify one
result and update its bucket for every allow-listed field. -/
def distStep (d : Distributions) (result : PersonaResult) : Distributions :=
  match sentimentOf result.score with
  | .adopt => { d with adopt := updateFieldMap d.adopt result.persona_data }
  | .mixed => { d with mixed := updateFieldMap d.mixed result.persona_data }
  | .not => { d with not := updateFieldMap d.not result.persona_data }

/-- SimulationService._calculate_property_distributions. -/
def calculate_property_distributions (results : List PersonaResult) : Distributions :=
  results.foldl distStep { adopt := [], mixed := [], not := [] }

/-- Outcome of json.loads on the synthesizer response: decode failure,
a non-object JSON value (dict .get then raises AttributeError), or an
object with string values. -/
inductive JsonOutcome where
  | notJson
  | jsonNonObj
  | jsonObj (fields : List (String × String))
  deriving Repr, DecidableEq

/-- dict.get(key, default) on a parsed JSON object. -/
def dictGet (fields : List (String × String)) (key dflt : String) : String :=
  match fields.find? (fun kv => kv.1 == key) with
  | some kv => kv.2
  | none => dflt

/-- The synthesized title and recommendation pair. -/
structure Recommendation where
  title : String
  recommendation : String
  deriving Repr, DecidableEq

/-- The LLM gateway and json.loads as oracles.  Each field is one call site,
keyed by the semantic inputs its fixed prompt embeds; .error carries str(e)
of a raised exception. -/
structure LLMOracle where
  phase1 : String → String → Except String String
  phase2 : String → Except String String
  recommend : String → SentimentBreakdown → Except String String
  parseJson : String → JsonOutcome

/-- SimulationService._call_llm_phase1: the gateway call on the profile and
idea text, with response.content.strip(). -/
def call_llm_phase1 (o : LLMOracle) (persona_profile idea_text : String) : Except String String :=
  (o.phase1 persona_profile idea_text).map String.trim

/-- SimulationService._call_llm_phase2: the gateway call on the phase-1 text,
then the [1-5] regex parse with default 3 and the final clamp. -/
def call_llm_phase2 (o : LLMOracle) (text_response : String) : Except String Int :=
  (o.phase2 text_response).map parseLikert

/-- The degraded result returned when a per-persona exception is caught. -/
def degradedResult (persona : Persona) : PersonaResult :=
  { persona_id := persona.id, persona_data := persona.persona_data,
    response_text := "Error processing persona", score := 3 }

/-- SimulationService._process_persona_complete: phase 1 then phase 2, with
the per-persona try/except replacing any failure by the degraded result. -/
def process_persona_complete (o : LLMOracle) (persona : Persona)
    (persona_profile idea_text : String) : PersonaResult :=
  match call_llm_phase1 o persona_profile idea_text with
  | .error _ => degradedResult persona
  | .ok text_response =>
    match call_llm_phase2 o text_response with
    | .error _ => degradedResult persona
    | .ok score =>
      { persona_id := persona.id, persona_data := persona.persona_data,
        response_text := text_response, score := score }

/-- The chunk size constant self.batch_size. -/
def batch_size : Nat := 10

/-- One chunk of the batch loop: asyncio.gather over the chunk's tasks,
which preserves the order of the coroutines it was given. -/
def processBatch (o : LLMOracle) (idea_text : String) (batch : List Persona) : List PersonaResult :=
  batch.map (fun persona =>
    process_persona_complete o persona (format_persona_profile persona.persona_data) idea_text)

/-- The batch loop of run_simulation: personas[i : i + batch_size] chunks
processed sequentially, results extended in order. -/
def runBatches (o : LLMOracle) (idea_text : String) (personas : List Persona) : List PersonaResult :=
  if personas = [] then []
  else
    processBatch o idea_text (personas.take batch_size) ++
      runBatches o idea_text (personas.drop batch_size)
termination_by personas.length
decreasing_by
  simp only [List.length_drop]
  exact Nat.sub_lt (List.length_pos.mpr (by assumption)) (by simp [batch_size])

/-- SimulationService._generate_recommendation: one gateway call on the idea
text and breakdown (property_distributions is accepted but unused by the
prompt), then json.loads on the stripped content with dict .get defaults,
falling back to the raw stripped text when decoding fails.  A non-object
JSON value makes dict .get raise AttributeError, which the except
json.JSONDecodeError clause does not catch. -/
def generate_recommendation (o : LLMOracle) (idea_text : String)
    (sentiment_breakdown : SentimentBreakdown) (_property_distributions : Distributions) :
    Except String Recommendation :=
  match o.recommend idea_text sentiment_breakdown with
  | .error e => .error e
  | .ok content =>
    match o.parseJson content.trim with
    | .jsonObj fields =>
      .ok { title := dictGet fields "short_title" "Experiment",
            recommendation := dictGet fields "recommendation" "No recommendation available" }
    | .jsonNonObj => .error "AttributeError"
    | .notJson => .ok { title := "Experiment", recommendation := content.trim }

/-- One row of the responses list assembled by run_simulation. -/
structure ResponseEntry where
  persona_id : String
  persona_data : PersonaData
  response_text : String
  deriving Repr, DecidableEq

/-- The dict returned by run_simulation.  The empty dicts of the error path
are modelled as none. -/
structure SimulationResult where
  experiment_id : String
  personas : List Persona
  responses : List ResponseEntry
  scores : List Int
  sentiment_breakdown : Option SentimentBreakdown
  property_distributions : Option Distributions
  title : String
  recommendation : String
  status : String
  error_message : Option String
  deriving Repr, DecidableEq

/-- SimulationService.run_simulation: batches, aggregation, recommendation,
with the outer try/except.  Per-persona failures are absorbed inside
process_persona_complete and the aggregation is total, so in this model the
only raising step of the guarded sequence is the recommendation call
(including its AttributeError path). -/
def run_simulation (o : LLMOracle) (experiment_id : String) (personas : List Persona)
    (idea_text : String) : SimulationResult :=
  let all_results := runBatches o idea_text personas
  let sentiment_breakdown := calculate_sentiment_breakdown all_results
  let property_distributions := calculate_property_distributions all_results
  match generate_recommendation o idea_text sentiment_breakdown property_distributions with
  | .ok recommendation_data =>
    { experiment_id := experiment_id,
      personas := personas,
      responses := all_results.map (fun result =>
        { persona_id := result.persona_id, persona_data := result.persona_data,
          response_text := result.response_text }),
      scores := all_results.map (fun result => result.score),
      sentiment_breakdown := some sentiment_breakdown,
      property_distributions := some property_distributions,
      title := recommendation_data.title,
      recommendation := recommendation_data.recommendation,
      status := "completed",
      error_message := none }
  | .error e =>
    { experiment_id := experiment_id,
      personas := personas,
      responses := [],
      scores := [],
      sentiment_breakdown := none,
      property_distributions := none,
      title := "Experiment",
      recommendation := "",
      status := "error",
      error_message := some e }

/-- Sum of the per-value counts of one attribute's counter. -/
def sumVC (vc : ValCounts) : Nat :=
  (vc.map (fun kv => kv.2)).sum

/-- The attribute keys present in one bucket of the distributions. -/
def fmKeys (m : FieldMap) : List String :=
  m.map (fun kv => kv.1)

/-- Sum of the per-value counts recorded under one attribute of a bucket,
0 when the attribute is absent. -/
def sumAt : FieldMap → String → Nat
  | [], _ => 0
  | (k, vc) :: rest, f => if k = f then sumVC vc else sumAt rest f

/-- Invariant carried through the distribution fold: every key of the bucket
is allow-listed, every allow-listed key present sums to the number of
results already classified into the bucket, and an absent allow-listed key
means no result has been classified yet. -/
def FMInv (m : FieldMap) (k : Nat) : Prop :=
  (∀ f ∈ fmKeys m, f ∈ allowed_fields) ∧
  ∀ f ∈ allowed_fields, (f ∈ fmKeys m → sumAt m f = k) ∧ (f ∉ fmKeys m → k = 0)

/-- Oracle whose recommendation call raises, for exercising the
orchestrator's outer except clause. -/
def oracleRecommendFails : LLMOracle :=
  { phase1 := fun _ _ => .ok "sounds good",
    phase2 := fun _ => .ok "4",
    recommend := fun _ _ => .error "gateway down",
    parseJson := fun _ => .notJson }

/-- Oracle whose calls all succeed and whose synthesizer response is not
valid JSON. -/
def oracleRecommendOk : LLMOracle :=
  { phase1 := fun _ _ => .ok "sounds good",
    phase2 := fun _ => .ok "4",
    recommend := fun _ _ => .ok "all good",
    parseJson := fun _ => .notJson }

/-- Oracle whose phase-1 call raises for every persona. -/
def oraclePhase1Fails : LLMOracle :=
  { phase1 := fun _ _ => .error "rate limited",
    phase2 := fun _ => .ok "4",
    recommend := fun _ _ => .ok "all good",
    parseJson := fun _ => .notJson }

/-- Oracle whose synthesizer response parses as a JSON object with neither
expected key. -/
def oracleRecommendEmptyObj : LLMOracle :=
  { phase1 := fun _ _ => .ok "sounds good",
    phase2 := fun _ => .ok "4",
    recommend := fun _ _ => .ok "resp",
    parseJson := fun _ => .jsonObj [] }

/-- A sample persona. -/
def personaEx : Persona :=
  { id := "p1", persona_data := [("age", .int 30), ("hobbies", .list ["golf", "chess"])] }

/-- A sample per-persona result with an adopting score. -/
def resultEx : PersonaResult :=
  { persona_id := "p1", persona_data := [("age", .int 30)],
    response_text := "sounds good", score := 5 }

/-- The batch loop is the per-persona map: chunking with order-preserving
gather followed by extend flattens back to input order. -/
theorem runBatches_eq_map (o : LLMOracle) (idea_text : String) :
    ∀ personas : List Persona,
      runBatches o idea_text personas =
        personas.map (fun p =>
          process_persona_complete o p (format_persona_profile p.persona_data) idea_text)
  | personas => by
    rw [runBatches]
    by_cases h : personas = []
    · subst h
      rfl
    · rw [if_neg h, runBatches_eq_map o idea_text (personas.drop batch_size)]
      rw [processBatch, ← List.map_append, List.take_append_drop]
termination_by personas => personas.length
decreasing_by
  simp only [List.length_drop]
  exact Nat.sub_lt (List.length_pos.mpr h) (by simp [batch_size])

/-- Claim C3: the batch scheduler uses fixed chunks of 10, returns exactly
one result per persona, and the output list is the input list mapped
through the per-persona pipeline in input order, so nothing is dropped or
reordered. -/
theorem scheduler_chunks_preserve_order (o : LLMOracle) (idea_text : String)
    (personas : List Persona) :
    batch_size = 10 ∧
    (runBatches o idea_text personas).length = personas.length ∧
    runBatches o idea_text personas =
      personas.map (fun p =>
        process_persona_complete o p (format_persona_profile p.persona_data) idea_text) := by
  refine ⟨rfl, ?_, runBatches_eq_map o idea_text personas⟩
  rw [runBatches_eq_map]
  simp

/-- Claim C4: an exception in phase 1 or phase 2 of one persona's pipeline
is absorbed at the per-persona boundary into the degraded result carrying
the sentinel text and score 3 together with that persona's id and
attributes, and the scheduler still returns one result per persona. -/
theorem per_persona_failure_absorbed (o : LLMOracle) (persona : Persona)
    (persona_profile idea_text : String)
    (h : (∃ e, call_llm_phase1 o persona_profile idea_text = .error e) ∨
         (∃ t e, call_llm_phase1 o persona_profile idea_text = .ok t ∧
           call_llm_phase2 o t = .error e)) :
    process_persona_complete o persona persona_profile idea_text =
      { persona_id := persona.id, persona_data := persona.persona_data,
        response_text := "Error processing persona", score := 3 } ∧
    ∀ personas : List Persona, (runBatches o idea_text personas).length = personas.length := by
  constructor
  · rcases h with ⟨e, he⟩ | ⟨t, e, hok, he⟩
    · simp [process_persona_complete, he, degradedResult]
    · simp [process_persona_complete, hok, he, degradedResult]
  · intro personas
    rw [runBatches_eq_map]
    simp

/-- Witness for per_persona_failure_absorbed: a phase-1 failure on a
concrete persona. -/
theorem per_persona_failure_absorbed_witness :
    process_persona_complete oraclePhase1Fails personaEx "profile" "idea" =
      { persona_id := "p1",
        persona_data := [("age", PyValue.int 30), ("hobbies", PyValue.list ["golf", "chess"])],
        response_text := "Error processing persona", score := 3 } ∧
    (runBatches oraclePhase1Fails "idea" [personaEx]).length = 1 := by
  have h := per_persona_failure_absorbed oraclePhase1Fails personaEx "profile" "idea"
    (Or.inl ⟨"rate limited", rfl⟩)
  exact ⟨h.1, h.2 [personaEx]⟩

/-- find? skips a prefix on which the predicate is everywhere false. -/
theorem find?_append_all_false {p : Char → Bool} :
    ∀ {l₁ : List Char} (l₂ : List Char), (∀ c ∈ l₁, p c = false) →
      List.find? p (l₁ ++ l₂) = List.find? p l₂
  | [], _, _ => rfl
  | c :: cs, l₂, h => by
    simp only [List.cons_append, List.find?, h c (by simp)]
    exact find?_append_all_false l₂ (fun x hx => h x (by simp [hx]))

/-- A character in the class [1-5] is one of the five digits. -/
theorem inClass15_cases {c : Char} (h : inClass15 c = true) :
    c = '1' ∨ c = '2' ∨ c = '3' ∨ c = '4' ∨ c = '5' := by
  have h' := h
  simp [inClass15] at h'
  tauto

/-- String concatenation concatenates the character data. -/
theorem string_data_append (s t : String) : (s ++ t).data = s.data ++ t.data := by
  cases s
  cases t
  rfl

/-- Claim C5: the extracted score is the first character of the response in
the class [1-5] (as its digit value), defaults to 3 when no such character
occurs, is clamped into [1,5], and characters outside the class occurring
earlier in the text never determine the score. -/
theorem likert_score_extraction (s : String) :
    (1 ≤ parseLikert s ∧ parseLikert s ≤ 5) ∧
    (firstLikertChar s = none → parseLikert s = 3) ∧
    (∀ c, firstLikertChar s = some c →
      parseLikert s = Int.ofNat (c.toNat - '0'.toNat) ∧
      1 ≤ Int.ofNat (c.toNat - '0'.toNat) ∧ Int.ofNat (c.toNat - '0'.toNat) ≤ 5) ∧
    (∀ t : String, (∀ c ∈ s.data, inClass15 c = false) →
      parseLikert (s ++ t) = parseLikert t) := by
  refine ⟨?_, ?_, ?_, ?_⟩
  · unfold parseLikert
    cases firstLikertChar s <;> simp
  · intro h
    simp [parseLikert, h]
  · intro c hc
    have hmem := List.find?_some hc
    rcases inClass15_cases hmem with h | h | h | h | h <;> subst h <;>
      simp [parseLikert, hc]
  · intro t h
    have hfirst : firstLikertChar (s ++ t) = firstLikertChar t := by
      unfold firstLikertChar
      rw [string_data_append]
      exact find?_append_all_false t.data h
    simp [parseLikert, hfirst]

/-- Witness for likert_score_extraction: a prefix containing the out-of-class
digits 9, 0 and 7 does not determine the score; the first in-class digit 4
does. -/
theorem likert_score_extraction_witness : parseLikert (" 907" ++ "a4x") = 4 := by
  have h1 := (likert_score_extraction " 907").2.2.2 "a4x" (by decide)
  have h2 := ((likert_score_extraction "a4x").2.2.1 '4' (by decide)).1
  rw [h1, h2]
  decide

/-- Every integer score falls into exactly one of the three buckets, so the
bucket counts sum to the list length. -/
theorem countP_score_trichotomy (results : List PersonaResult) :
    results.countP (fun result => 4 ≤ result.score) +
      results.countP (fun result => result.score = 3) +
      results.countP (fun result => result.score ≤ 2) = results.length := by
  induction results with
  | nil => rfl
  | cons r rest ih =>
    simp only [List.countP_cons, List.length_cons]
    by_cases h4 : 4 ≤ r.score <;> by_cases h3 : r.score = 3 <;>
      by_cases h2 : r.score ≤ 2 <;> simp [h4, h3, h2] <;> omega

/-- Claim C6: the sentiment breakdown counts adopt as score ≥ 4, mixed as
score = 3 and not as score ≤ 2, the three counts sum to the number of
results, each percentage is count/total*100 formatted to one decimal digit,
and the empty list yields counts 0 and percentage "0.0" via the explicit
total = 0 guard rather than a division by zero. -/
theorem sentiment_breakdown_reference (results : List PersonaResult) :
    (calculate_sentiment_breakdown results).adopt.count =
      results.countP (fun result => 4 ≤ result.score) ∧
    (calculate_sentiment_breakdown results).mixed.count =
      results.countP (fun result => result.score = 3) ∧
    (calculate_sentiment_breakdown results).not.count =
      results.countP (fun result => result.score ≤ 2) ∧
    (calculate_sentiment_breakdown results).adopt.count +
      (calculate_sentiment_breakdown results).mixed.count +
      (calculate_sentiment_breakdown results).not.count = results.length ∧
    (calculate_sentiment_breakdown results).adopt.percentage =
      fmtPercent1 (results.countP (fun result => 4 ≤ result.score)) results.length ∧
    (calculate_sentiment_breakdown results).mixed.percentage =
      fmtPercent1 (results.countP (fun result => result.score = 3)) results.length ∧
    (calculate_sentiment_breakdown results).not.percentage =
      fmtPercent1 (results.countP (fun result => result.score ≤ 2)) results.length ∧
    calculate_sentiment_breakdown [] =
      { adopt := { count := 0, percentage := "0.0" },
        mixed := { count := 0, percentage := "0.0" },
        not := { count := 0, percentage := "0.0" } } := by
  by_cases hlen : results.length = 0
  · have hnil : results = [] := List.length_eq_zero.mp hlen
    subst hnil
    refine ⟨rfl, rfl, rfl, rfl, ?_, ?_, ?_, rfl⟩ <;> decide
  · have hne : results ≠ [] := fun h => hlen (by simp [h])
    refine ⟨?_, ?_, ?_, ?_, ?_, ?_, ?_, by decide⟩ <;>
      simp [calculate_sentiment_breakdown, hne, countP_score_trichotomy]

/-- Claim C1 counterexample: with a recommendation call that raises, the
orchestrator returns status "error", not the status "failed" the claim
names. -/
theorem orchestrator_failed_status_counterexample :
    (run_simulation oracleRecommendFails "e1" [personaEx] "idea").status = "error" ∧
    (run_simulation oracleRecommendFails "e1" [personaEx] "idea").status ≠ "failed" ∧
    (run_simulation oracleRecommendFails "e1" [personaEx] "idea").error_message =
      some "gateway down" := by
  refine ⟨rfl, ?_, rfl⟩
  intro h
  have h' : "error" = "failed" := h
  exact absurd h' (by decide)

/-- Claim C1 (amended): when an exception escapes the scheduler/aggregator/
synthesizer sequence, run_simulation catches it and returns a result with
status "error" (the code's literal, where the claim said "failed"), empty
responses and scores, and the exception's message recorded; as a total
function of its oracle it never raises to its caller. -/
theorem orchestrator_error_contract (o : LLMOracle) (experiment_id idea_text : String)
    (personas : List Persona) (e : String)
    (h : generate_recommendation o idea_text
        (calculate_sentiment_breakdown (runBatches o idea_text personas))
        (calculate_property_distributions (runBatches o idea_text personas)) = .error e) :
    run_simulation o experiment_id personas idea_text =
      { experiment_id := experiment_id, personas := personas, responses := [], scores := [],
        sentiment_breakdown := none, property_distributions := none, title := "Experiment",
        recommendation := "", status := "error", error_message := some e } := by
  simp [run_simulation, h]

/-- Witness for orchestrator_error_contract at a concrete oracle whose
recommendation call raises. -/
theorem orchestrator_error_contract_witness :
    run_simulation oracleRecommendFails "e1" [personaEx] "idea" =
      { experiment_id := "e1", personas := [personaEx], responses := [], scores := [],
        sentiment_breakdown := none, property_distributions := none, title := "Experiment",
        recommendation := "", status := "error", error_message := some "gateway down" } :=
  orchestrator_error_contract oracleRecommendFails "e1" "idea" [personaEx] "gateway down" rfl

/-- Claim C2 counterexample: for the empty persona list and a synthesizer
call that succeeds, run_simulation returns a completed result, not the
failed result with a descriptive error message the claim requires. -/
theorem empty_personas_failed_counterexample :
    (run_simulation oracleRecommendOk "e1" [] "idea").status = "completed" ∧
    (run_simulation oracleRecommendOk "e1" [] "idea").status ≠ "failed" ∧
    (run_simulation oracleRecommendOk "e1" [] "idea").error_message = none := by
  have hb : runBatches oracleRecommendOk "idea" [] = [] := by
    rw [runBatches]
    rfl
  refine ⟨?_, ?_, ?_⟩ <;> simp [run_simulation, hb, generate_recommendation, oracleRecommendOk]

/-- Claim C2 (amended): the empty persona list is not special-cased: the
orchestrator runs zero batches and proceeds, so when the synthesizer call
succeeds it returns a completed result with empty responses and scores and
no error message — never a "failed" result, and never a crash
(run_simulation is total). -/
theorem empty_personas_completed (o : LLMOracle) (experiment_id idea_text : String)
    (r : Recommendation)
    (h : generate_recommendation o idea_text (calculate_sentiment_breakdown [])
        (calculate_property_distributions []) = .ok r) :
    (run_simulation o experiment_id [] idea_text).status = "completed" ∧
    (run_simulation o experiment_id [] idea_text).responses = [] ∧
    (run_simulation o experiment_id [] idea_text).scores = [] ∧
    (run_simulation o experiment_id [] idea_text).error_message = none ∧
    (run_simulation o experiment_id [] idea_text).status ≠ "failed" := by
  have hb : runBatches o idea_text [] = [] := by
    rw [runBatches]
    rfl
  refine ⟨?_, ?_, ?_, ?_, ?_⟩ <;> simp [run_simulation, hb, h]

/-- Witness for empty_personas_completed at a concrete succeeding oracle. -/
theorem empty_personas_completed_witness :
    (run_simulation oracleRecommendOk "e1" [] "idea").status = "completed" ∧
    (run_simulation oracleRecommendOk "e1" [] "idea").scores = [] :=
  have h := empty_personas_completed oracleRecommendOk "e1" "idea"
    { title := "Experiment", recommendation := String.trim "all good" } rfl
  ⟨h.1, h.2.2.1⟩

/-- Claim C8: when the synthesizer's response fails to decode as JSON, the
fallback returns the fixed literal title "Experiment" and the entire raw
response text stripped of surrounding whitespace, and no parse error is
raised (the result is an .ok, not an .error). -/
theorem recommendation_json_fallback (o : LLMOracle) (idea_text : String)
    (sb : SentimentBreakdown) (pd : Distributions) (content : String)
    (h1 : o.recommend idea_text sb = .ok content)
    (h2 : o.parseJson content.trim = .notJson) :
    generate_recommendation o idea_text sb pd =
      .ok { title := "Experiment", recommendation := content.trim } := by
  simp [generate_recommendation, h1, h2]

/-- Witness for recommendation_json_fallback at a concrete oracle returning
a non-JSON response. -/
theorem recommendation_json_fallback_witness :
    generate_recommendation oracleRecommendOk "idea"
      { adopt := { count := 0, percentage := "0.0" },
        mixed := { count := 0, percentage := "0.0" },
        not := { count := 0, percentage := "0.0" } }
      { adopt := [], mixed := [], not := [] } =
      .ok { title := "Experiment", recommendation := String.trim "all good" } :=
  recommendation_json_fallback oracleRecommendOk "idea"
    { adopt := { count := 0, percentage := "0.0" },
      mixed := { count := 0, percentage := "0.0" },
      not := { count := 0, percentage := "0.0" } }
    { adopt := [], mixed := [], not := [] } "all good" rfl rfl

/-- Claim C10: when the synthesizer's response decodes to a JSON object, the
title and recommendation are read with dict .get defaults, so a missing
"short_title" key yields "Experiment" and a missing "recommendation" key
yields "No recommendation available", and the call returns without error. -/
theorem recommendation_missing_keys_defaults (o : LLMOracle) (idea_text : String)
    (sb : SentimentBreakdown) (pd : Distributions) (content : String)
    (fields : List (String × String))
    (h1 : o.recommend idea_text sb = .ok content)
    (h2 : o.parseJson content.trim = .jsonObj fields) :
    generate_recommendation o idea_text sb pd =
      .ok { title := dictGet fields "short_title" "Experiment",
            recommendation := dictGet fields "recommendation" "No recommendation available" } ∧
    (fields.find? (fun kv => kv.1 == "short_title") = none →
      dictGet fields "short_title" "Experiment" = "Experiment") ∧
    (fields.find? (fun kv => kv.1 == "recommendation") = none →
      dictGet fields "recommendation" "No recommendation available" =
        "No recommendation available") := by
  refine ⟨by simp [generate_recommendation, h1, h2], ?_, ?_⟩ <;>
    intro h <;> simp [dictGet, h]

/-- Witness for recommendation_missing_keys_defaults: an empty JSON object
yields both defaults. -/
theorem recommendation_missing_keys_defaults_witness :
    generate_recommendation oracleRecommendEmptyObj "idea"
      { adopt := { count := 0, percentage := "0.0" },
        mixed := { count := 0, percentage := "0.0" },
        not := { count := 0, percentage := "0.0" } }
      { adopt := [], mixed := [], not := [] } =
      .ok { title := "Experiment", recommendation := "No recommendation available" } := by
  have h := recommendation_missing_keys_defaults oracleRecommendEmptyObj "idea"
    { adopt := { count := 0, percentage := "0.0" },
      mixed := { count := 0, percentage := "0.0" },
      not := { count := 0, percentage := "0.0" } }
    { adopt := [], mixed := [], not := [] } "resp" [] rfl rfl
  rw [h.1, h.2.1 rfl, h.2.2 rfl]

/-- Claim C9: the profile formatter is a pure function of the attribute
mapping (a Lean def, hence deterministic) and agrees pointwise with the
spec's description: one "Human Readable Key: value" line per attribute in
insertion order, keys with separators replaced by spaces and title-cased,
null rendered "N/A", lists comma-joined, other values via their string
representation. -/
theorem formatter_matches_spec (persona_data : PersonaData) :
    format_persona_profile persona_data = formatterSpec persona_data := by
  unfold format_persona_profile formatterSpec
  congr 1

/-- Bumping one value raises that attribute counter's total by exactly 1. -/
theorem sumVC_bumpVal (vc : ValCounts) (v : String) :
    sumVC (bumpVal vc v) = sumVC vc + 1 := by
  induction vc with
  | nil => rfl
  | cons kv rest ih =>
    obtain ⟨k, n⟩ := kv
    by_cases h : k = v
    · simp [bumpVal, h, sumVC]
      omega
    · simp [bumpVal, h, sumVC] at ih ⊢
      omega

/-- Bumping field f adds exactly 1 to the total recorded under f and leaves
every other field's total unchanged. -/
theorem sumAt_bumpField (m : FieldMap) (f v g : String) :
    sumAt (bumpField m f v) g = sumAt m g + (if g = f then 1 else 0) := by
  induction m with
  | nil =>
    by_cases h : f = g
    · subst h
      simp [bumpField, sumAt, sumVC]
    · simp [bumpField, sumAt, h, Ne.symm h]
  | cons kv rest ih =>
    obtain ⟨k, vc⟩ := kv
    by_cases hkf : k = f
    · subst hkf
      by_cases hkg : k = g
      · subst hkg
        simp [bumpField, sumAt, sumVC_bumpVal]
      · simp [bumpField, sumAt, hkg, Ne.symm hkg]
    · by_cases hkg : k = g
      · subst hkg
        simp [bumpField, sumAt, hkf, Ne.symm hkf]
      · simp [bumpField, sumAt, hkf, hkg, ih]

/-- The keys after bumping field f are the old keys plus f. -/
theorem mem_fmKeys_bumpField (m : FieldMap) (f v g : String) :
    g ∈ fmKeys (bumpField m f v) ↔ g ∈ fmKeys m ∨ g = f := by
  induction m with
  | nil => simp [bumpField, fmKeys]
  | cons kv rest ih =>
    obtain ⟨k, vc⟩ := kv
    by_cases hkf : k = f
    · subst hkf
      simp [bumpField, fmKeys]
      tauto
    · simp [bumpField, hkf, fmKeys] at ih ⊢
      tauto

/-- An absent field records total 0. -/
theorem sumAt_eq_zero_of_not_mem (m : FieldMap) (f : String) (h : f ∉ fmKeys m) :
    sumAt m f = 0 := by
  induction m with
  | nil => rfl
  | cons kv rest ih =>
    obtain ⟨k, vc⟩ := kv
    simp only [fmKeys, List.map_cons, List.mem_cons] at h
    push_neg at h
    have hkf : ¬k = f := Ne.symm h.1
    simp only [sumAt, if_neg hkf]
    exact ih (by simpa [fmKeys] using h.2)

/-- The inner loop over the allow-list, unrolled. -/
theorem updateFieldMap_eq (m : FieldMap) (pd : PersonaData) :
    updateFieldMap m pd =
      bumpField (bumpField (bumpField (bumpField m
          "age" (stringifyFieldValue pd "age"))
          "income_level" (stringifyFieldValue pd "income_level"))
          "gender" (stringifyFieldValue pd "gender"))
          "relationship_status" (stringifyFieldValue pd "relationship_status") := rfl

/-- Processing one result adds exactly 1 under every allow-listed field of
its bucket and nothing elsewhere. -/
theorem sumAt_updateFieldMap (m : FieldMap) (pd : PersonaData) (f : String) :
    sumAt (updateFieldMap m pd) f = sumAt m f + (if f ∈ allowed_fields then 1 else 0) := by
  rw [updateFieldMap_eq, sumAt_bumpField, sumAt_bumpField, sumAt_bumpField, sumAt_bumpField]
  by_cases h1 : f = "age" <;> by_cases h2 : f = "income_level" <;>
    by_cases h3 : f = "gender" <;> by_cases h4 : f = "relationship_status" <;>
    simp_all [allowed_fields]

/-- The keys after processing one result are the old keys plus the
allow-list. -/
theorem mem_fmKeys_updateFieldMap (m : FieldMap) (pd : PersonaData) (f : String) :
    f ∈ fmKeys (updateFieldMap m pd) ↔ f ∈ fmKeys m ∨ f ∈ allowed_fields := by
  rw [updateFieldMap_eq]
  simp only [mem_fmKeys_bumpField, allowed_fields, List.mem_cons, List.not_mem_nil]
  tauto

/-- The bucket invariant survives processing one more result into it. -/
theorem FMInv_update (m : FieldMap) (pd : PersonaData) (k : Nat) (h : FMInv m k) :
    FMInv (updateFieldMap m pd) (k + 1) := by
  obtain ⟨hsub, hsum⟩ := h
  constructor
  · intro f hf
    rcases (mem_fmKeys_updateFieldMap m pd f).mp hf with h' | h'
    · exact hsub f h'
    · exact h'
  · intro f hfa
    have hmem : f ∈ fmKeys (updateFieldMap m pd) :=
      (mem_fmKeys_updateFieldMap m pd f).mpr (Or.inr hfa)
    refine ⟨fun _ => ?_, fun hno => absurd hmem hno⟩
    rw [sumAt_updateFieldMap, if_pos hfa]
    by_cases hf : f ∈ fmKeys m
    · rw [(hsum f hfa).1 hf]
    · rw [sumAt_eq_zero_of_not_mem m f hf, (hsum f hfa).2 hf]

/-- The empty bucket satisfies the invariant at 0. -/
theorem FMInv_empty : FMInv [] 0 := by
  refine ⟨fun f hf => ?_, fun f _ => ⟨fun hf => ?_, fun _ => rfl⟩⟩ <;>
    simp [fmKeys] at hf

/-- Folding the distribution step over a result list carries the bucket
invariant, counting each bucket's classified results. -/
theorem dist_foldl_inv (results : List PersonaResult) :
    ∀ (d : Distributions) (ka km kn : Nat),
      FMInv d.adopt ka → FMInv d.mixed km → FMInv d.not kn →
      FMInv ((results.foldl distStep d).adopt)
          (ka + results.countP (fun r => 4 ≤ r.score)) ∧
      FMInv ((results.foldl distStep d).mixed)
          (km + results.countP (fun r => r.score = 3)) ∧
      FMInv ((results.foldl distStep d).not)
          (kn + results.countP (fun r => r.score ≤ 2)) := by
  induction results with
  | nil =>
    intro d ka km kn ha hm hn
    simpa using ⟨ha, hm, hn⟩
  | cons r rest ih =>
    intro d ka km kn ha hm hn
    simp only [List.foldl_cons]
    by_cases h4 : 4 ≤ r.score
    · have h3 : ¬r.score = 3 := by omega
      have h2 : ¬r.score ≤ 2 := by omega
      have hstep : distStep d r = { d with adopt := updateFieldMap d.adopt r.persona_data } := by
        simp [distStep, sentimentOf, h4]
      have ihx := ih (distStep d r) (ka + 1) km kn
        (by rw [hstep]; exact FMInv_update d.adopt r.persona_data ka ha)
        (by rw [hstep]; exact hm)
        (by rw [hstep]; exact hn)
      rw [List.countP_cons_of_pos _ _ (by simp [h4]),
        List.countP_cons_of_neg _ _ (by simp [h3]),
        List.countP_cons_of_neg _ _ (by simp [h2])]
      refine ⟨?_, ihx.2.1, ihx.2.2⟩
      convert ihx.1 using 1
      omega
    · by_cases h3 : r.score = 3
      · have h2 : ¬r.score ≤ 2 := by omega
        have hstep : distStep d r =
            { d with mixed := updateFieldMap d.mixed r.persona_data } := by
          simp [distStep, sentimentOf, h4, h3]
        have ihx := ih (distStep d r) ka (km + 1) kn
          (by rw [hstep]; exact ha)
          (by rw [hstep]; exact FMInv_update d.mixed r.persona_data km hm)
          (by rw [hstep]; exact hn)
        rw [List.countP_cons_of_neg _ _ (by simp [h4]),
          List.countP_cons_of_pos _ _ (by simp [h3]),
          List.countP_cons_of_neg _ _ (by simp [h2])]
        refine ⟨ihx.1, ?_, ihx.2.2⟩
        convert ihx.2.1 using 1
        omega
      · have h2 : r.score ≤ 2 := by omega
        have hstep : distStep d r =
            { d with not := updateFieldMap d.not r.persona_data } := by
          simp [distStep, sentimentOf, h4, h3]
        have ihx := ih (distStep d r) ka km (kn + 1)
          (by rw [hstep]; exact ha)
          (by rw [hstep]; exact hm)
          (by rw [hstep]; exact FMInv_update d.not r.persona_data kn hn)
        rw [List.countP_cons_of_neg _ _ (by simp [h4]),
          List.countP_cons_of_neg _ _ (by simp [h3]),
          List.countP_cons_of_pos _ _ (by simp [h2])]
        refine ⟨ihx.1, ihx.2.1, ?_⟩
        convert ihx.2.2 using 1
        omega

/-- Claim C7: the property distributions count only the four allow-listed
attributes, stringify values with the "N/A" default for missing attributes
and the ", " join for lists, and for every bucket and every attribute
present under it the per-value counts sum to the number of responses
classified into that bucket. -/
theorem property_distribution_invariant (results : List PersonaResult) :
    (∀ f ∈ fmKeys (calculate_property_distributions results).adopt,
      f ∈ allowed_fields ∧
      sumAt (calculate_property_distributions results).adopt f =
        results.countP (fun r => 4 ≤ r.score)) ∧
    (∀ f ∈ fmKeys (calculate_property_distributions results).mixed,
      f ∈ allowed_fields ∧
      sumAt (calculate_property_distributions results).mixed f =
        results.countP (fun r => r.score = 3)) ∧
    (∀ f ∈ fmKeys (calculate_property_distributions results).not,
      f ∈ allowed_fields ∧
      sumAt (calculate_property_distributions results).not f =
        results.countP (fun r => r.score ≤ 2)) ∧
    (∀ (pd : PersonaData) (field : String),
      pdGet pd field = none → stringifyFieldValue pd field = "N/A") ∧
    (∀ (pd : PersonaData) (field : String) (l : List String),
      pdGet pd field = some (.list l) →
        stringifyFieldValue pd field = String.intercalate ", " l) := by
  have hfold := dist_foldl_inv results { adopt := [], mixed := [], not := [] } 0 0 0
    FMInv_empty FMInv_empty FMInv_empty
  simp only [Nat.zero_add] at hfold
  refine ⟨?_, ?_, ?_, ?_, ?_⟩
  · intro f hf
    obtain ⟨hsub, hsum⟩ := hfold.1
    exact ⟨hsub f hf, (hsum f (hsub f hf)).1 hf⟩
  · intro f hf
    obtain ⟨hsub, hsum⟩ := hfold.2.1
    exact ⟨hsub f hf, (hsum f (hsub f hf)).1 hf⟩
  · intro f hf
    obtain ⟨hsub, hsum⟩ := hfold.2.2
    exact ⟨hsub f hf, (hsum f (hsub f hf)).1 hf⟩
  · intro pd field h
    simp [stringifyFieldValue, h]
  · intro pd field l h
    simp [stringifyFieldValue, h]

/-- Witness for property_distribution_invariant: one adopting result puts
count 1 under "age" in the adopt bucket, a missing attribute stringifies to
"N/A", and a list attribute stringifies to its ", " join. -/
theorem property_distribution_invariant_witness :
    ("age" ∈ allowed_fields ∧
      sumAt (calculate_property_distributions [resultEx]).adopt "age" = 1) ∧
    stringifyFieldValue [] "gender" = "N/A" ∧
    stringifyFieldValue [("hobbies", PyValue.list ["golf", "chess"])] "hobbies" =
      String.intercalate ", " ["golf", "chess"] := by
  have h := property_distribution_invariant [resultEx]
  refine ⟨?_, ?_, ?_⟩
  · have hm : "age" ∈ fmKeys (calculate_property_distributions [resultEx]).adopt := by decide
    have hx := h.1 "age" hm
    refine ⟨hx.1, ?_⟩
    rw [hx.2]
    decide
  · exact h.2.2.2.1 [] "gender" rfl
  · exact h.2.2.2.2 [("hobbies", PyValue.list ["golf", "chess"])] "hobbies" ["golf", "chess"] rfl
